import Mathlib
/-!
# Verification of the JAMA article extraction core (`jama-to-ppt`)

Shallow embedding of `src/extractor.py` (ContentExtractor) and
`src/scraper.py` (JAMAScraper) from the `keremurat/graph` repository.

Strings are modelled as `List Char` (named `Str`): Python `str.split()`,
`' '.join`, `str.strip()` and slicing become list functions, so every
definition is executable and kernel-decidable on concrete inputs.

The document is modelled *after* HTML parsing: a `Doc` record carries the
results of the BeautifulSoup queries the extractor performs (meta-tag
contents, selector hits, and the node list of the parsed
`citation_abstract` fragment).  BeautifulSoup itself is an external
library and is not re-verified; the extraction logic, the regular
expressions and the word-limit logic are embedded faithfully.
-/
/-- Python strings, modelled as lists of characters. -/
abbrev Str := List Char
/-- Convert a Lean string literal to the `Str` model. -/
def strL (s : String) : Str := s.toList
/-- Negation of `Char.isWhitespace`, the word-character test of
Python's `str.split()` (split on runs of whitespace). -/
def notWs (c : Char) : Bool := !c.isWhitespace
/-- Accumulator worker for `pyWords`; `w` is the current word, reversed. -/
def pyWordsAux : Str → Str → List Str
  | [], w => if w.isEmpty then [] else [w.reverse]
  | c :: cs, w =>
    if c.isWhitespace then
      if w.isEmpty then pyWordsAux cs [] else w.reverse :: pyWordsAux cs []
    else pyWordsAux cs (c :: w)
/-- Python `text.split()`: whitespace-delimited words, empty pieces dropped.
Structurally recursive so that the kernel can evaluate it on literals. -/
def pyWords (s : Str) : List Str := pyWordsAux s []
/-- Reference (non-accumulator) form of `pyWords`, convenient for proofs. -/
def pyWordsW : Str → List Str
  | [] => []
  | c :: cs =>
    if c.isWhitespace then pyWordsW cs
    else (c :: cs.takeWhile notWs) :: pyWordsW (cs.dropWhile notWs)
termination_by s => s.length
decreasing_by
  · simp
  · have hle : (cs.dropWhile notWs).length ≤ cs.length := by
      induction cs with
      | nil => simp
      | cons x xs ih =>
        by_cases h : notWs x
        · simpa [List.dropWhile_cons, h] using Nat.le_trans ih (Nat.le_succ _)
        · simp [List.dropWhile_cons, h]
    simpa using Nat.lt_succ_of_le hle
/-- `' '.join` over a list of strings (Python `' '.join(words)`). -/
def joinSp : List Str → Str
  | [] => []
  | [w] => w
  | w :: ws => w ++ ' ' :: joinSp ws
/-- The ellipsis marker appended by `_limit_words`. -/
def ellipsisStr : Str := ['.', '.', '.']
/-- `ContentExtractor._limit_words` (extractor.py lines 415-420):
`words = text.split(); if len(words) > max_words: return ' '.join(words[:max_words]) + '...'; return text`. -/
def limit_words (text : Str) (maxWords : Nat) : Str :=
  if (pyWords text).length > maxWords then
    joinSp ((pyWords text).take maxWords) ++ ellipsisStr
  else text
/-- Whitespace-delimited word count of a string, not counting a trailing
ellipsis marker when one is present. -/
def wordCountNoMarker (s : Str) : Nat :=
  if s.reverse.take 3 = ellipsisStr then (pyWords (s.take (s.length - 3))).length
  else (pyWords s).length
/-! ## A small regular-expression engine

Models the fragment of Python `re` used by `extractor.py`: literal
characters (all extractor searches pass `re.IGNORECASE`, except the two
title/DOI clean-ups which are case-sensitive, so both a sensitive `ch`
and an insensitive `chI` literal exist), character classes, `$`,
concatenation, alternation, and greedy/lazy repetition.  `grp` marks
capture group 1 (every pattern whose `group(1)` the extractor reads has
exactly one capture group).  Matching returns the list of possible
(remainder, capture) outcomes in Python's backtracking preference order:
left alternative first, greedy star longest-first, lazy star
shortest-first; the head of the list is the match Python's engine picks.
`$` is modelled as end-of-input (the Python nuance that `$` also matches
just before a final newline is dropped; no text handled here ends in a
newline). -/
inductive RE where
  | eps : RE
  | fail : RE
  | ch (c : Char) : RE
  | chI (c : Char) : RE
  | cls (p : Char → Bool) : RE
  | eos : RE
  | cat (a b : RE) : RE
  | alt (a b : RE) : RE
  | star (greedy : Bool) (a : RE) : RE
  | grp (a : RE) : RE
/-- Size measure used to compute a sufficient fuel bound. -/
def reSize : RE → Nat
  | .eps | .fail | .ch _ | .chI _ | .cls _ | .eos => 1
  | .cat a b | .alt a b => reSize a + reSize b + 1
  | .star _ a | .grp a => reSize a + 1
/-- Backtracking matcher.  Returns all (remainder, group-1 capture) pairs in
preference order.  The fuel argument only bounds the recursion depth; every
call chain either shrinks the pattern or consumes input inside a `star`, so
`(reSize r + 2) * (length s + 2)` levels always suffice. -/
def reM : Nat → RE → Str → List (Str × Option Str)
  | 0, _, _ => []
  | fuel + 1, r, s =>
    match r with
    | .eps => [(s, none)]
    | .fail => []
    | .ch c =>
      match s with
      | [] => []
      | x :: xs => if x = c then [(xs, none)] else []
    | .chI c =>
      match s with
      | [] => []
      | x :: xs => if x.toLower = c then [(xs, none)] else []
    | .cls p =>
      match s with
      | [] => []
      | x :: xs => if p x then [(xs, none)] else []
    | .eos => if s.isEmpty then [(s, none)] else []
    | .cat a b =>
      (reM fuel a s).flatMap fun pr =>
        (reM fuel b pr.1).map fun qr => (qr.1, pr.2 <|> qr.2)
    | .alt a b => reM fuel a s ++ reM fuel b s
    | .grp a =>
      (reM fuel a s).map fun pr => (pr.1, some (s.take (s.length - pr.1.length)))
    | .star g a =>
      let more :=
        ((reM fuel a s).filter fun pr => pr.1.length < s.length).flatMap fun pr =>
          (reM fuel (.star g a) pr.1).map fun qr => (qr.1, pr.2 <|> qr.2)
      if g then more ++ [(s, none)] else (s, none) :: more
/-- Match `r` at the start of `s` with a sufficient fuel budget. -/
def reMatches (r : RE) (s : Str) : List (Str × Option Str) :=
  reM ((reSize r + 2) * (s.length + 2)) r s
/-- `re.search(r, s)` followed by `.group(1)`: scan match start positions
left to right (Python's leftmost-match rule); `none` if no position
matches, otherwise group 1 of the preferred match at the first matching
position.  Only used with patterns containing exactly one group. -/
def reSearchG (r : RE) : Str → Option Str
  | [] => (reMatches r []).head?.map fun pr => pr.2.getD []
  | c :: rest =>
    match (reMatches r (c :: rest)).head? with
    | some pr => some (pr.2.getD [])
    | none => reSearchG r rest
/-- ASCII word character, for Python's `\b`. -/
def isWordChar (c : Char) : Bool := c.isAlphanum || c == '_'
/-- `\b` holds at a position given the previous character and the rest. -/
def wordBoundary (prev : Option Char) (s : Str) : Bool :=
  let pw := match prev with | none => false | some c => isWordChar c
  let nw := match s with | [] => false | c :: _ => isWordChar c
  pw != nw
/-- Boolean `re.search` for a pattern parameterized by whether a word
boundary holds at the match start (used for the `\b...` alternatives of
the statistical-marker patterns, whose `\b` sits at the start of its
alternative and hence at the match start position). -/
def reSearchB (mk : Bool → RE) : Option Char → Str → Bool
  | prev, [] => ((reMatches (mk (wordBoundary prev [])) []).head?).isSome
  | prev, c :: rest =>
    if ((reMatches (mk (wordBoundary prev (c :: rest))) (c :: rest)).head?).isSome
    then true
    else reSearchB mk (some c) rest
/-- `re.split(r, s)` for patterns without capture groups whose matches
always consume at least one character (true of both split patterns in
`_extract_finding`); `acc` is the current piece, reversed. -/
def reSplitAux (r : RE) : Nat → Str → Str → List Str
  | 0, s, acc => [acc.reverse ++ s]
  | _ + 1, [], acc => [acc.reverse]
  | fuel + 1, c :: rest, acc =>
    match (reMatches r (c :: rest)).head? with
    | some pr =>
      if pr.1.length < (c :: rest).length then acc.reverse :: reSplitAux r fuel pr.1 []
      else reSplitAux r fuel rest (c :: acc)
    | none => reSplitAux r fuel rest (c :: acc)
def reSplit (r : RE) (s : Str) : List Str := reSplitAux r (s.length + 1) s []
/-- `re.sub(r, '', s)`: delete every non-overlapping match, scanning left
to right (used only with patterns that consume at least one character). -/
def reSubAux (r : RE) : Nat → Str → Str → Str
  | 0, s, acc => acc.reverse ++ s
  | _ + 1, [], acc => acc.reverse
  | fuel + 1, c :: rest, acc =>
    match (reMatches r (c :: rest)).head? with
    | some pr =>
      if pr.1.length < (c :: rest).length then reSubAux r fuel pr.1 acc
      else reSubAux r fuel rest (c :: acc)
    | none => reSubAux r fuel rest (c :: acc)
def reSubAll (r : RE) (s : Str) : Str := reSubAux r (s.length + 1) s []
/-- `re.sub(r, '', s)` for a `^`-anchored pattern: at most one
substitution, at position 0 (no MULTILINE flag is ever passed). -/
def reSubAnchored (r : RE) (s : Str) : Str :=
  match (reMatches r s).head? with
  | some pr => pr.1
  | none => s
/-- Python `str.strip()`. -/
def pyStrip (s : Str) : Str :=
  ((s.dropWhile Char.isWhitespace).reverse.dropWhile Char.isWhitespace).reverse
/-! ### Pattern combinators (transliteration helpers) -/
def rcat (l : List RE) : RE := l.foldr RE.cat RE.eps
def ralt (l : List RE) : RE := l.foldr RE.alt RE.fail
/-- Case-insensitive literal string (`re.IGNORECASE`). -/
def strI (s : String) : RE := rcat (s.toList.map fun c => RE.chI c.toLower)
/-- Case-sensitive literal string. -/
def strE (s : String) : RE := rcat (s.toList.map RE.ch)
/-- `x?` (greedy option). -/
def optR (r : RE) : RE := RE.alt r RE.eps
/-- `x+` greedy. -/
def plusG (r : RE) : RE := RE.cat r (RE.star true r)
/-- `x+?` lazy. -/
def plusL (r : RE) : RE := RE.cat r (RE.star false r)
/-- `x*` greedy. -/
def starG (r : RE) : RE := RE.star true r
/-- `\s` -/
def wsC : RE := RE.cls Char.isWhitespace
/-- `\d` -/
def digitC : RE := RE.cls Char.isDigit
/-- `[^...]` over an explicit character list. -/
def notC (l : List Char) : RE := RE.cls fun c => !(l.contains c)
/-- `[:.\s]` (the `[:.\s]+` separator class used after keyword labels). -/
def colonDotWsC : RE := RE.cls fun c => c == ':' || c == '.' || c.isWhitespace
/-- `.` without DOTALL (any character except newline). -/
def dotNoNL : RE := RE.cls fun c => c != '\n'
/-- `.` with DOTALL (any character). -/
def dotAllC : RE := RE.cls fun _ => true
set_option maxRecDepth 1000000
/-! ## Regular expressions of `ContentExtractor`, transliterated

Every `re.search`/`re.sub`/`re.split` pattern of `extractor.py` appears
below under a name indicating its use site.  All searches in the
extractor pass `re.IGNORECASE` (hence `strI`/`chI`); the two title
clean-ups and the DOI URL clean-up pass no flags (hence `strE`/`ch`).
Only `resultsRe` is compiled with `re.DOTALL` (hence `dotAllC`). -/
/-- `_extract_population` structured pattern 1:
`(\d+\s+(?:participants?|patients?|individuals?|subjects?)[^.;]+?(?:age|years|COVID|ARDS|with|mean)[^.;]+)` -/
def popP1 : RE := RE.grp (rcat [plusG digitC, plusG wsC,
  ralt [rcat [strI ("participant"), optR (RE.chI 's')],
        rcat [strI ("patient"), optR (RE.chI 's')],
        rcat [strI ("individual"), optR (RE.chI 's')],
        rcat [strI ("subject"), optR (RE.chI 's')]],
  plusL (notC ['.', ';']),
  ralt [strI ("age"), strI ("years"), strI ("COVID"), strI ("ARDS"),
        strI ("with"), strI ("mean")],
  plusG (notC ['.', ';'])])
/-- `_extract_population` structured pattern 2: `(Patients? with [^.;]+)` -/
def popP2 : RE := RE.grp (rcat [strI ("Patient"), optR (RE.chI 's'),
  strI (" with "), plusG (notC ['.', ';'])])
/-- `_extract_population` structured pattern 3:
`(\d+\s+(?:participants?|patients?)[^.;]+)` -/
def popP3 : RE := RE.grp (rcat [plusG digitC, plusG wsC,
  ralt [rcat [strI ("participant"), optR (RE.chI 's')],
        rcat [strI ("patient"), optR (RE.chI 's')]],
  plusG (notC ['.', ';'])])
/-- `_extract_population` clean-up sub:
`\s+(?:according to|enrolled from|Final).*$` -/
def popCleanupRe : RE := rcat [plusG wsC,
  ralt [strI ("according to"), strI ("enrolled from"), strI ("Final")],
  starG dotNoNL, RE.eos]
/-- `_extract_population` fallback pattern 1:
`(?:Participants?|Population|Patients?)[:.\s]+([^.]+?)(?:\.|Intervention|Setting|Methods)` -/
def popF1 : RE := rcat [
  ralt [rcat [strI ("Participant"), optR (RE.chI 's')], strI ("Population"),
        rcat [strI ("Patient"), optR (RE.chI 's')]],
  plusG colonDotWsC, RE.grp (plusL (notC ['.'])),
  ralt [RE.ch '.', strI ("Intervention"), strI ("Setting"), strI ("Methods")]]
/-- `_extract_population` fallback pattern 2:
`(\d+\s+(?:participants?|patients?|individuals?|subjects?)(?:[^.]+?)(?:aged?|mean age|median age)[^.]+)` -/
def popF2 : RE := RE.grp (rcat [plusG digitC, plusG wsC,
  ralt [rcat [strI ("participant"), optR (RE.chI 's')],
        rcat [strI ("patient"), optR (RE.chI 's')],
        rcat [strI ("individual"), optR (RE.chI 's')],
        rcat [strI ("subject"), optR (RE.chI 's')]],
  plusL (notC ['.']),
  ralt [rcat [strI ("age"), optR (RE.chI 'd')], strI ("mean age"), strI ("median age")],
  plusG (notC ['.'])])
/-- `_extract_population` fallback pattern 3: `(n\s*=\s*\d+[^.]+?)(?:\.|;)` -/
def popF3 : RE := rcat [
  RE.grp (rcat [RE.chI 'n', starG wsC, RE.ch '=', starG wsC, plusG digitC,
    plusL (notC ['.'])]),
  ralt [RE.ch '.', RE.ch ';']]
/-- `_extract_intervention` fallback pattern 1:
`Intervention[:.\s]+([^.]+?)(?:\.|Main Outcomes?|Results?|Setting)` -/
def intF1 : RE := rcat [strI ("Intervention"), plusG colonDotWsC,
  RE.grp (plusL (notC ['.'])),
  ralt [RE.ch '.', rcat [strI ("Main Outcome"), optR (RE.chI 's')],
        rcat [strI ("Result"), optR (RE.chI 's')], strI ("Setting")]]
/-- `_extract_intervention` fallback pattern 2:
`(?:received|underwent|assigned to|randomized to)\s+([^.]+?)(?:\.|;|compared)` -/
def intF2 : RE := rcat [
  ralt [strI ("received"), strI ("underwent"), strI ("assigned to"),
        strI ("randomized to")],
  plusG wsC, RE.grp (plusL (notC ['.'])),
  ralt [RE.ch '.', RE.ch ';', strI ("compared")]]
/-- `_extract_intervention` fallback pattern 3:
`(?:Treatment|Therapy|Drug|Medication)[:.\s]+([^.]+?)(?:\.|;)` -/
def intF3 : RE := rcat [
  ralt [strI ("Treatment"), strI ("Therapy"), strI ("Drug"), strI ("Medication")],
  plusG colonDotWsC, RE.grp (plusL (notC ['.'])), ralt [RE.ch '.', RE.ch ';']]
/-- `_extract_setting` structured pattern:
`(?:conducted|performed|carried out|in)\s+(.+?)(?:\.|;|Participants)` -/
def setS1 : RE := rcat [
  ralt [strI ("conducted"), strI ("performed"), strI ("carried out"), strI ("in")],
  plusG wsC, RE.grp (plusL dotNoNL),
  ralt [RE.ch '.', RE.ch ';', strI ("Participants")]]
/-- `_extract_setting` fallback pattern 1:
`Setting[:.\s]+([^.]+?)(?:\.|Participants?|Methods?)` -/
def setF1 : RE := rcat [strI ("Setting"), plusG colonDotWsC,
  RE.grp (plusL (notC ['.'])),
  ralt [RE.ch '.', rcat [strI ("Participant"), optR (RE.chI 's')],
        rcat [strI ("Method"), optR (RE.chI 's')]]]
/-- `_extract_setting` fallback pattern 2:
`(?:conducted|performed|carried out)\s+(?:at|in)\s+([^.]+?)(?:\.|;)` -/
def setF2 : RE := rcat [
  ralt [strI ("conducted"), strI ("performed"), strI ("carried out")],
  plusG wsC, ralt [strI ("at"), strI ("in")], plusG wsC,
  RE.grp (plusL (notC ['.'])), ralt [RE.ch '.', RE.ch ';']]
/-- `_extract_setting` fallback pattern 3:
`(?:hospital|clinic|center|facility|institution)s?\s+(?:in|at|from)\s+([^.]+?)(?:\.|;)` -/
def setF3 : RE := rcat [
  ralt [strI ("hospital"), strI ("clinic"), strI ("center"), strI ("facility"),
        strI ("institution")],
  optR (RE.chI 's'), plusG wsC, ralt [strI ("in"), strI ("at"), strI ("from")],
  plusG wsC, RE.grp (plusL (notC ['.'])), ralt [RE.ch '.', RE.ch ';']]
/-- `_extract_primary_outcome` fallback pattern 1:
`(?:Main Outcomes? and Measures?|Primary Outcome|Primary Endpoint)[:.\s]+([^.]+?)(?:\.|Results?)` -/
def outF1 : RE := rcat [
  ralt [rcat [strI ("Main Outcome"), optR (RE.chI 's'), strI (" and Measure"),
              optR (RE.chI 's')],
        strI ("Primary Outcome"), strI ("Primary Endpoint")],
  plusG colonDotWsC, RE.grp (plusL (notC ['.'])),
  ralt [RE.ch '.', rcat [strI ("Result"), optR (RE.chI 's')]]]
/-- `_extract_primary_outcome` fallback pattern 2:
`(?:measured|assessed|evaluated)\s+([^.]+?mortality|[^.]+?survival|[^.]+?incidence)` -/
def outF2 : RE := rcat [
  ralt [strI ("measured"), strI ("assessed"), strI ("evaluated")], plusG wsC,
  RE.grp (ralt [rcat [plusL (notC ['.']), strI ("mortality")],
                rcat [plusL (notC ['.']), strI ("survival")],
                rcat [plusL (notC ['.']), strI ("incidence")]])]
/-- `_extract_primary_outcome` fallback pattern 3:
`(?:outcome was|endpoint was)\s+([^.]+?)(?:\.|;)` -/
def outF3 : RE := rcat [
  ralt [strI ("outcome was"), strI ("endpoint was")], plusG wsC,
  RE.grp (plusL (notC ['.'])), ralt [RE.ch '.', RE.ch ';']]
/-- `_extract_finding` sentence split on the structured Results text:
`\.(?:\s+|\s*$)` -/
def sentSplitRe : RE := rcat [RE.ch '.',
  ralt [plusG wsC, rcat [starG wsC, RE.eos]]]
/-- `_extract_finding` statistical-marker pattern (structured branch):
`\d+\.?\d*%|\bp\s*[<>=]\s*0\.\d+|\bn\s*=\s*\d+|95%\s*CI|OR\s*=|HR\s*=|RR\s*=|\d+\s+days`.
The two `\b`-alternatives are enabled only when a word boundary holds at
the match start (argument `b`); a disabled alternative is `RE.fail`. -/
def marker1Mk (b : Bool) : RE := ralt [
  rcat [plusG digitC, optR (RE.ch '.'), starG digitC, RE.ch '%'],
  if b then rcat [RE.chI 'p', starG wsC,
    RE.cls (fun c => c == '<' || c == '>' || c == '='), starG wsC,
    RE.ch '0', RE.ch '.', plusG digitC] else RE.fail,
  if b then rcat [RE.chI 'n', starG wsC, RE.ch '=', starG wsC, plusG digitC]
  else RE.fail,
  rcat [RE.ch '9', RE.ch '5', RE.ch '%', starG wsC, strI ("CI")],
  rcat [strI ("OR"), starG wsC, RE.ch '='],
  rcat [strI ("HR"), starG wsC, RE.ch '='],
  rcat [strI ("RR"), starG wsC, RE.ch '='],
  rcat [plusG digitC, plusG wsC, strI ("days")]]
/-- `_extract_finding` statistical-marker pattern (fallback branch):
`\d+\.?\d*%|\bp\s*[<>=]\s*0\.\d+|\bn\s*=\s*\d+|OR\s*=|HR\s*=|RR\s*=` -/
def marker2Mk (b : Bool) : RE := ralt [
  rcat [plusG digitC, optR (RE.ch '.'), starG digitC, RE.ch '%'],
  if b then rcat [RE.chI 'p', starG wsC,
    RE.cls (fun c => c == '<' || c == '>' || c == '='), starG wsC,
    RE.ch '0', RE.ch '.', plusG digitC] else RE.fail,
  if b then rcat [RE.chI 'n', starG wsC, RE.ch '=', starG wsC, plusG digitC]
  else RE.fail,
  rcat [strI ("OR"), starG wsC, RE.ch '='],
  rcat [strI ("HR"), starG wsC, RE.ch '='],
  rcat [strI ("RR"), starG wsC, RE.ch '=']]
/-- `_extract_finding` whole-results pattern (DOTALL):
`Results?[:.\s]+(.+?)(?:Conclusions?|Discussion|$)` -/
def resultsRe : RE := rcat [strI ("Result"), optR (RE.chI 's'), plusG colonDotWsC,
  RE.grp (plusL dotAllC),
  ralt [rcat [strI ("Conclusion"), optR (RE.chI 's')], strI ("Discussion"), RE.eos]]
/-- `_extract_finding` fallback sentence split: `[.;]\s+` -/
def split2Re : RE := rcat [RE.cls (fun c => c == '.' || c == ';'), plusG wsC]
/-- `_extract_title` clean-up 1 (case-sensitive): `\s*\|\s*JAMA.*$` -/
def titleRe1 : RE := rcat [starG wsC, RE.ch '|', starG wsC, strE ("JAMA"),
  starG dotNoNL, RE.eos]
/-- `_extract_title` clean-up 2 (case-sensitive): `\s*-\s*JAMA.*$` -/
def titleRe2 : RE := rcat [starG wsC, RE.ch '-', starG wsC, strE ("JAMA"),
  starG dotNoNL, RE.eos]
/-- `_clean_doi` clean-up 1 (IGNORECASE, `^`-anchored): `^doi:\s*` -/
def doiPrefixRe : RE := rcat [strI ("doi:"), starG wsC]
/-- `_clean_doi` clean-up 2 (case-sensitive): `https?://doi\.org/` -/
def doiUrlRe : RE := rcat [strE ("http"), optR (RE.ch 's'), strE ("://doi.org/")]
/-! ## Document model and structured-abstract parser -/
/-- A node of the parsed `citation_abstract` fragment, as returned by
`abstract_soup.find_all(['h3', 'p'])` in document order; each node
carries the text BeautifulSoup's `get_text` yields for it (`strip=True`
for headings, `separator=' ', strip=True` for paragraphs). -/
inductive AbsNode where
  | h3 (text : Str) : AbsNode
  | p (text : Str) : AbsNode
/-- Python-dict assignment `sections[k] = v` on an insertion-ordered
association list: update in place if present, else append. -/
def setKey : List (Str × Str) → Str → Str → List (Str × Str)
  | [], k, v => [(k, v)]
  | (k', v') :: rest, k, v =>
    if k' = k then (k', v) :: rest else (k', v') :: setKey rest k v
/-- The fragment walk of `_get_structured_abstract` (extractor.py lines
195-200): an `h3` makes its text the current section and initializes its
body to `""`; a `p` *assigns* its text as the body of the current section
(Python `sections[current_section] = elem.get_text(...)` — an
overwrite, not an append).  A `p` before any heading, or under a heading
whose text is empty (`current_section` is falsy), is dropped. -/
def buildSections : Option Str → List (Str × Str) → List AbsNode → List (Str × Str)
  | _, acc, [] => acc
  | _, acc, AbsNode.h3 t :: rest => buildSections (some t) (setKey acc t []) rest
  | cur, acc, AbsNode.p t :: rest =>
    match cur with
    | some c =>
      if c ≠ [] then buildSections (some c) (setKey acc c t) rest
      else buildSections (some c) acc rest
    | none => buildSections none acc rest
/-- The extractor's view of a parsed article page: each field holds the
result of one BeautifulSoup query performed by `ContentExtractor`
(`none` = no matching element).  `citationAbstract` is the node list of
the re-parsed, HTML-unescaped `citation_abstract` meta content.  Element
texts are carried as the `get_text` results the code reads.
Field order: citationAbstract, domAbstractText, metaOgTitle,
h1PropertyName, h1ArticleHeaderTitle, h1ContentTitle, titleTagText,
citationAuthors, authorElements, metaCitationPubDate,
metaArticlePublishedTime, timeDatetime, metaCitationDoi, doiAnchorHref,
doiElementText. -/
structure Doc where
  citationAbstract : Option (List AbsNode)
  domAbstractText : Option Str
  metaOgTitle : Option Str
  h1PropertyName : Option Str
  h1ArticleHeaderTitle : Option Str
  h1ContentTitle : Option Str
  titleTagText : Option Str
  citationAuthors : List Str
  authorElements : Option (List Str)
  metaCitationPubDate : Option Str
  metaArticlePublishedTime : Option Str
  timeDatetime : Option Str
  metaCitationDoi : Option Str
  doiAnchorHref : Option Str
  doiElementText : Option Str
/-- `_get_structured_abstract`: parse the `citation_abstract` fragment if
the meta tag exists, else the empty mapping.  (The instance-field cache
is irrelevant for a pure function.) -/
def get_structured_abstract (d : Doc) : List (Str × Str) :=
  match d.citationAbstract with
  | some nodes => buildSections none [] nodes
  | none => []
/-- `_get_abstract_text`: space-join of the structured-abstract section
bodies when the structured abstract is nonempty, else the text of the
first matching DOM abstract selector, else `""`. -/
def get_abstract_text (d : Doc) : Str :=
  let structured := get_structured_abstract d
  if structured.isEmpty then
    match d.domAbstractText with
    | some t => t
    | none => []
  else joinSp (structured.map Prod.snd)
/-! ## Field extractors -/
/-- `for key in [...]: if key in structured:` — first listed key present
in the section mapping, with its body. -/
def lookupFirst (sections : List (Str × Str)) : List Str → Option Str
  | [] => none
  | k :: ks =>
    match sections.lookup k with
    | some v => some v
    | none => lookupFirst sections ks
/-- `text.split('.')[0]`: the text up to (excluding) the first period. -/
def firstSentence (t : Str) : Str := t.takeWhile fun c => c != '.'
/-- `for pattern in patterns: match = re.search(pattern, text, re.IGNORECASE)`
— group 1 of the first pattern that matches. -/
def firstGroupMatch : List RE → Str → Option Str
  | [], _ => none
  | r :: rs, t =>
    match reSearchG r t with
    | some g => some g
    | none => firstGroupMatch rs t
def popKeys : List Str :=
  [strL ("Participants"), strL ("Design, Setting, and Participants"),
   strL ("Population")]
/-- `ContentExtractor._extract_population` (extractor.py lines 232-275). -/
def extract_population (d : Doc) : Str :=
  match lookupFirst (get_structured_abstract d) popKeys with
  | some text =>
    match firstGroupMatch [popP1, popP2, popP3] text with
    | some g => limit_words (reSubAll popCleanupRe (pyStrip g)) 15
    | none => limit_words (firstSentence text) 15
  | none =>
    match firstGroupMatch [popF1, popF2, popF3] (get_abstract_text d) with
    | some g => limit_words (pyStrip g) 15
    | none => strL ("Population data not found")
def intKeys : List Str :=
  [strL ("Interventions"), strL ("Intervention"), strL ("Exposures")]
/-- `ContentExtractor._extract_intervention` (extractor.py lines 277-303). -/
def extract_intervention (d : Doc) : Str :=
  match lookupFirst (get_structured_abstract d) intKeys with
  | some text => limit_words (firstSentence text) 15
  | none =>
    match firstGroupMatch [intF1, intF2, intF3] (get_abstract_text d) with
    | some g => limit_words (pyStrip g) 15
    | none => strL ("Intervention data not found")
def settingKeys : List Str :=
  [strL ("Setting"), strL ("Design, Setting, and Participants")]
/-- `ContentExtractor._extract_setting` (extractor.py lines 305-336).
Note: the structured-path match is used *without* `.strip()`
(`self._limit_words(match.group(1), 10)`). -/
def extract_setting (d : Doc) : Str :=
  match lookupFirst (get_structured_abstract d) settingKeys with
  | some text =>
    match reSearchG setS1 text with
    | some g => limit_words g 10
    | none => limit_words (firstSentence text) 10
  | none =>
    match firstGroupMatch [setF1, setF2, setF3] (get_abstract_text d) with
    | some g => limit_words (pyStrip g) 10
    | none => strL ("Setting data not found")
def outcomeKeys : List Str :=
  [strL ("Main Outcomes and Measures"), strL ("Primary Outcome"),
   strL ("Primary Endpoint"), strL ("Main Outcome Measures")]
/-- `ContentExtractor._extract_primary_outcome` (extractor.py lines 338-364). -/
def extract_primary_outcome (d : Doc) : Str :=
  match lookupFirst (get_structured_abstract d) outcomeKeys with
  | some text => limit_words (firstSentence text) 20
  | none =>
    match firstGroupMatch [outF1, outF2, outF3] (get_abstract_text d) with
    | some g => limit_words (pyStrip g) 20
    | none => strL ("Primary outcome not found")
/-- Sentences of the structured Results text:
`re.split(r'\.(?:\s+|\s*$)', results_text)`, stripped, empties dropped. -/
def resultsSentences (t : Str) : List Str :=
  ((reSplit sentSplitRe t).map pyStrip).filter fun s => !s.isEmpty
/-- Result-bearing sentences of the structured Results text, in original
order (each one `.strip()`ped again when appended, as in the code). -/
def qualifyingOf (t : Str) : List Str :=
  ((resultsSentences t).filter (reSearchB marker1Mk none)).map pyStrip
/-- `f"Finding {number} not found"` -/
def findingSentinel (n : Nat) : Str := strL ("Finding " ++ toString n ++ " not found")
/-- Marker-qualifying pieces of the regex-extracted Results span
(`findings` in the fallback branch): the `[.;]\s+`-split pieces are *not*
stripped or empty-filtered there; only the qualifying ones are stripped
when collected. -/
def fbFindings (g : Str) : List Str :=
  ((reSplit split2Re g).filter (reSearchB marker2Mk none)).map pyStrip

/-- The tail of `_extract_finding` (extractor.py lines 393-413): regex
over the whole abstract text, reached when the structured branch did not
return. -/
def finding_fallback (d : Doc) (n : Nat) : Str :=
  match reSearchG resultsRe (get_abstract_text d) with
  | some g =>
    if n ≤ (fbFindings g).length then limit_words ((fbFindings g).getD (n - 1) []) 15
    else if n ≤ (reSplit split2Re g).length then
      limit_words ((reSplit split2Re g).getD (n - 1) []) 15
    else findingSentinel n
  | none => findingSentinel n
/-- `ContentExtractor._extract_finding` (extractor.py lines 366-413).
The Python indexes `findings[number - 1]`; the extractor only ever calls
`number = 1` or `2`, for which `List.getD (n - 1) []` agrees (Python's
negative indexing at `number = 0` is not modelled). -/
def extract_finding (d : Doc) (n : Nat) : Str :=
  match (get_structured_abstract d).lookup (strL ("Results")) with
  | some rt =>
    if n ≤ (qualifyingOf rt).length then
      limit_words ((qualifyingOf rt).getD (n - 1) []) 15
    else if n ≤ (resultsSentences rt).length then
      limit_words ((resultsSentences rt).getD (n - 1) []) 15
    else finding_fallback d n
  | none => finding_fallback d n
/-! ## Metadata extractors -/
/-- Title clean-up: two `re.sub`s removing a `| JAMA...` / `- JAMA...`
suffix, then `.strip()`. -/
def cleanTitle (t : Str) : Str := pyStrip (reSubAll titleRe2 (reSubAll titleRe1 t))
/-- `ContentExtractor._extract_title` (extractor.py lines 46-72).  The
first selector string `'h1.meta-article-title'` contains the substring
`'meta'`, so the code's first iteration already looks up the
`og:title` meta tag (and cleans its content); the later
`'meta[property="og:title"]'` iteration repeats the identical lookup and
is therefore skipped here.  The three `h1` selector branches return
`get_text(strip=True)` uncleaned; the `<title>` branch is cleaned. -/
def extract_title (d : Doc) : Str :=
  match d.metaOgTitle with
  | some t => cleanTitle t
  | none =>
  match d.h1PropertyName with
  | some t => t
  | none =>
  match d.h1ArticleHeaderTitle with
  | some t => t
  | none =>
  match d.h1ContentTitle with
  | some t => t
  | none =>
  match d.titleTagText with
  | some t => cleanTitle t
  | none => strL ("Article Title Not Found")
/-- `', '.join(authors)` -/
def joinCommaSp : List Str → Str
  | [] => []
  | [a] => a
  | a :: rest => a ++ ',' :: ' ' :: joinCommaSp rest
/-- `ContentExtractor._extract_authors` (extractor.py lines 74-103):
first three `citation_author` meta contents if any, else the first three
texts of the first nonempty author selector; `" et al."` appended when
three or more were found. -/
def extract_authors (d : Doc) : Str :=
  let authors :=
    if d.citationAuthors.isEmpty then
      match d.authorElements with
      | some els => els.take 3
      | none => []
    else d.citationAuthors.take 3
  if authors.isEmpty then strL ("Authors Not Found")
  else if 3 ≤ authors.length then joinCommaSp authors ++ strL (" et al.")
  else joinCommaSp authors
/-- `ContentExtractor._clean_doi` (extractor.py lines 173-178). -/
def clean_doi (doi : Str) : Str :=
  pyStrip (reSubAll doiUrlRe (reSubAnchored doiPrefixRe doi))
/-- `ContentExtractor._extract_doi` (extractor.py lines 151-171). -/
def extract_doi (d : Doc) : Str :=
  match d.metaCitationDoi with
  | some c => clean_doi c
  | none =>
  match d.doiAnchorHref with
  | some href => clean_doi href
  | none =>
  match d.doiElementText with
  | some t => clean_doi t
  | none => strL ("DOI Not Found")
/-- The one Python exception the embedding has to represent. -/
inductive PyErr where
  | indexError : PyErr
deriving DecidableEq
/-- `ContentExtractor._extract_date` (extractor.py lines 105-126).  The
first two selectors are meta-tag lookups; `'time[datetime]'` is a CSS
lookup whose `datetime` attribute (or text) is carried by
`Doc.timeDatetime`.  The fourth selector `'.meta-article-date'` contains
the substring `'meta'`, so the code routes it to the meta branch and
evaluates `selector.split('[name="')[1]` — an `IndexError`, since the
selector contains no `[name="`.  Consequently the
`datetime.now().strftime("%B %Y")` fallback on line 126 is unreachable:
when none of the first three selectors matches, `_extract_date` raises.
`format_date` abstracts `_format_date` (a total function by its
`try/except`); no claim depends on its concrete output. -/
def extract_date (d : Doc) (format_date : Str → Str) : Except PyErr Str :=
  match d.metaCitationPubDate with
  | some content => Except.ok (format_date content)
  | none =>
  match d.metaArticlePublishedTime with
  | some content => Except.ok (format_date content)
  | none =>
  match d.timeDatetime with
  | some ds => Except.ok (format_date ds)
  | none => Except.error PyErr.indexError
/-- `ContentExtractor.extract_all` (extractor.py lines 23-44): the dict
literal evaluates `_extract_title`, `_extract_authors`, then
`_extract_date` — so an `_extract_date` exception propagates out of
`extract_all` and no mapping is produced. -/
def extract_all (d : Doc) (format_date : Str → Str) :
    Except PyErr (List (String × Str)) :=
  match extract_date d format_date with
  | Except.error e => Except.error e
  | Except.ok pubDate =>
    Except.ok [
      ("title", extract_title d),
      ("authors", extract_authors d),
      ("publication_date", pubDate),
      ("doi", extract_doi d),
      ("population", extract_population d),
      ("intervention", extract_intervention d),
      ("setting", extract_setting d),
      ("primary_outcome", extract_primary_outcome d),
      ("finding_1", extract_finding d 1),
      ("finding_2", extract_finding d 2)]
/-! ## Acquisition engine (`scraper.py`) -/
/-- The mutable state of a `JAMAScraper` instance. -/
structure ScraperState where
  html_content : Option Str
  successful_method : Option String
deriving DecidableEq
/-- What one fetch strategy does when invoked: raise, or return content.
(Strategies are effectful in Python; the model fixes each strategy's
outcome for the conversion under consideration.) -/
inductive Outcome where
  | raises : Outcome
  | returns (content : Str) : Outcome
deriving DecidableEq
/-- The success predicate of `JAMAScraper.scrape` (scraper.py line 69):
`self.html_content and len(self.html_content) > 500`. -/
def succPred (c : Str) : Bool := !c.isEmpty && decide (500 < c.length)
/-- The strategy loop of `JAMAScraper.scrape` (scraper.py lines 62-82).
Returns the names invoked (in order), the final instance state, and
either the winning content or the terminal exhaustion error.  A raising
strategy leaves `html_content` unchanged (the assignment on line 67
never happens); a strategy that returns content assigns it *before* the
predicate test, so rejected content is retained in the state. -/
def runMethods : ScraperState → List (String × Outcome) →
    List String × ScraperState × Except Unit Str
  | st, [] => ([], st, Except.error ())
  | st, (nm, o) :: rest =>
    match o with
    | Outcome.raises =>
      let r := runMethods st rest
      (nm :: r.1, r.2)
    | Outcome.returns c =>
      if succPred c then ([nm], ⟨some c, some nm⟩, Except.ok c)
      else
        let r := runMethods ⟨some c, st.successful_method⟩ rest
        (nm :: r.1, r.2)
def initScraper : ScraperState := ⟨none, none⟩
/-- The fixed strategy priority order built in `scrape` (scraper.py lines
46-60): Playwright if available, undetected Chrome if available, then
requests, headless Selenium, full Selenium. -/
def methodNames (hasPlaywright hasUC : Bool) : List String :=
  (if hasPlaywright then ["Playwright (stealth)"] else []) ++
  (if hasUC then ["Undetected Chrome"] else []) ++
  ["requests + BeautifulSoup", "Selenium (headless)", "Selenium (full browser)"]
/-- `JAMAScraper.scrape` for a given environment and strategy behaviour. -/
def scrape (st : ScraperState) (hasPlaywright hasUC : Bool)
    (behave : String → Outcome) : List String × ScraperState × Except Unit Str :=
  runMethods st ((methodNames hasPlaywright hasUC).map fun nm => (nm, behave nm))
/-- `JAMAScraper.get_soup` (scraper.py lines 241-246): re-scrape when
`html_content` is `None` or empty, then hand `html_content` to the HTML
parser — `Except.ok c` stands for "a RawDocument parsed from `c` is
produced". -/
def get_soup (st : ScraperState) (methods : List (String × Outcome)) :
    Except Unit Str :=
  if (st.html_content.getD []).isEmpty then
    match runMethods st methods with
    | (_, st', Except.ok _) => Except.ok (st'.html_content.getD [])
    | (_, _, Except.error e) => Except.error e
  else Except.ok (st.html_content.getD [])

/-! ## Concrete inputs used in the theorems -/

/-- An empty HTML page: no meta tags, no matching elements at all (for
instance `<html><body></body></html>`). -/
def emptyDoc : Doc :=
  ⟨none, none, none, none, none, none, none, [], none, none, none, none,
   none, none, none⟩

/-- A document whose `citation_abstract` meta content unescapes to the
fragment `<h3>Participants</h3><p>500 adults aged 60-75 with
hypertension.</p>` — BeautifulSoup's `find_all(['h3', 'p'])` on that
fragment yields exactly these two nodes with these texts. -/
def docC7 : Doc :=
  ⟨some [AbsNode.h3 (strL ("Participants")),
         AbsNode.p (strL ("500 adults aged 60-75 with hypertension."))],
   none, none, none, none, none, none, [], none, none, none, none,
   none, none, none⟩

/-- A Results section of four sentences: sentences 1 and 3 carry a
statistical marker (a percentage, a p-value), sentences 2 and 4 do not. -/
def resultsTextC8 : Str := strL
  ("Mortality was 20% in the treatment group. Patients generally tolerated the infusion well. The hazard was lower with p = 0.03 overall. Further trials are planned across sites.")

/-- A document whose structured abstract has the Results section
`resultsTextC8` (fragment `<h3>Results</h3><p>...</p>`). -/
def docC8 : Doc :=
  ⟨some [AbsNode.h3 (strL ("Results")), AbsNode.p resultsTextC8],
   none, none, none, none, none, none, [], none, none, none, none,
   none, none, none⟩

/-- A document whose `citation_abstract` fragment is `<h3>Participants</h3>`:
a heading with no following paragraph, so the section body stays `""`. -/
def docC9 : Doc :=
  ⟨some [AbsNode.h3 (strL ("Participants"))],
   none, none, none, none, none, none, [], none, none, none, none,
   none, none, none⟩

/-- A 20-word text for exercising truncation at limit 15. -/
def twentyWords : Str := strL
  ("w01 w02 w03 w04 w05 w06 w07 w08 w09 w10 w11 w12 w13 w14 w15 w16 w17 w18 w19 w20")

/-- A strategy attempt the engine rejects: it raised, or its content
fails the success predicate. -/
def strategyFails : Outcome → Bool
  | Outcome.raises => true
  | Outcome.returns c => !(succPred c)

def preC3 : List (String × Outcome) :=
  [("Playwright (stealth)", Outcome.raises), ("Undetected Chrome", Outcome.raises)]

def postC3 : List (String × Outcome) :=
  [("Selenium (headless)", Outcome.raises), ("Selenium (full browser)", Outcome.raises)]

/-- 501 characters of content: strictly above the 500-character threshold. -/
def winContent : Str := List.replicate 501 'x'

/-- All five strategies of a full environment, each raising. -/
def allRaiseMethods : List (String × Outcome) :=
  (methodNames true true).map fun nm => (nm, Outcome.raises)

/-! ## Lemmas -/

/-- `dropWhile` never lengthens a list. -/
theorem length_dropWhile_le' (p : Char → Bool) (l : Str) :
    (l.dropWhile p).length ≤ l.length := by
  induction l with
  | nil => simp
  | cons c cs ih =>
    by_cases h : p c
    · simpa [List.dropWhile_cons, h] using Nat.le_trans ih (Nat.le_succ _)
    · simp [List.dropWhile_cons, h]

theorem pyWordsW_nil : pyWordsW [] = [] := by
  simp [pyWordsW]

theorem pyWordsW_cons (c : Char) (cs : Str) :
    pyWordsW (c :: cs) =
      if c.isWhitespace then pyWordsW cs
      else (c :: cs.takeWhile notWs) :: pyWordsW (cs.dropWhile notWs) := by
  rw [pyWordsW]

theorem pyWordsAux_eq (s : Str) :
    pyWordsAux s [] = pyWordsW s ∧
    ∀ w : Str, w ≠ [] →
      pyWordsAux s w =
        (w.reverse ++ s.takeWhile notWs) :: pyWordsW (s.dropWhile notWs) := by
  induction s with
  | nil =>
    refine ⟨by simp [pyWordsAux, pyWordsW_nil], ?_⟩
    intro w hw
    simp [pyWordsAux, List.isEmpty_iff, hw, pyWordsW_nil]
  | cons c cs ih =>
    by_cases hc : c.isWhitespace
    · constructor
      · simp [pyWordsAux, hc, ih.1, pyWordsW_cons]
      · intro w hw
        simp [pyWordsAux, hc, List.isEmpty_iff, hw, ih.1, pyWordsW_cons,
          List.takeWhile_cons, List.dropWhile_cons, notWs]
    · constructor
      · rw [show pyWordsAux (c :: cs) [] = pyWordsAux cs [c] by simp [pyWordsAux, hc]]
        rw [ih.2 [c] (by simp), pyWordsW_cons]
        simp [hc, List.takeWhile_cons, List.dropWhile_cons, notWs]
      · intro w hw
        rw [show pyWordsAux (c :: cs) w = pyWordsAux cs (c :: w) by simp [pyWordsAux, hc]]
        rw [ih.2 (c :: w) (by simp)]
        simp [hc, List.takeWhile_cons, List.dropWhile_cons, notWs]

theorem pyWords_eq (s : Str) : pyWords s = pyWordsW s := (pyWordsAux_eq s).1

/-- Every word produced by `pyWords` is nonempty and whitespace-free. -/
theorem pyWordsW_words (s : Str) :
    ∀ w ∈ pyWordsW s, w ≠ [] ∧ ∀ c ∈ w, c.isWhitespace = false := by
  generalize hn : s.length = n
  induction n using Nat.strong_induction_on generalizing s with
  | _ n ih =>
    match s, hn with
    | [], _ => simp [pyWordsW_nil]
    | c :: cs, hn =>
      by_cases hc : c.isWhitespace
      · rw [pyWordsW_cons]
        simp only [hc, if_true]
        exact ih cs.length (by simp only [List.length_cons] at hn; omega) cs rfl
      · rw [pyWordsW_cons]
        simp only [hc, if_false, Bool.false_eq_true]
        intro w hw
        rcases List.mem_cons.mp hw with h | h
        · subst h
          refine ⟨by simp, ?_⟩
          intro x hx
          rcases List.mem_cons.mp hx with h | h
          · subst h; simpa using hc
          · have := List.mem_takeWhile_imp h
            simpa [notWs] using this
        · have hlen : (cs.dropWhile notWs).length < n := by
            have := length_dropWhile_le' notWs cs
            simp only [List.length_cons] at hn
            omega
          exact ih _ hlen _ rfl w h

theorem joinSp_nil : joinSp [] = [] := rfl

theorem joinSp_single (w : Str) : joinSp [w] = w := rfl

theorem joinSp_cons_cons (w x : Str) (ws : List Str) :
    joinSp (w :: x :: ws) = w ++ ' ' :: joinSp (x :: ws) := rfl

theorem takeWhile_append_of_all (p : Char → Bool) (l r : Str)
    (h : ∀ c ∈ l, p c = true) : (l ++ r).takeWhile p = l ++ r.takeWhile p := by
  induction l with
  | nil => simp
  | cons c cs ih =>
    have hc : p c = true := h c (by simp)
    simp only [List.cons_append, List.takeWhile_cons, hc, if_true]
    rw [ih (fun x hx => h x (by simp [hx]))]

theorem dropWhile_append_of_all (p : Char → Bool) (l r : Str)
    (h : ∀ c ∈ l, p c = true) : (l ++ r).dropWhile p = r.dropWhile p := by
  induction l with
  | nil => simp
  | cons c cs ih =>
    have hc : p c = true := h c (by simp)
    simp only [List.cons_append, List.dropWhile_cons, hc, if_true]
    exact ih (fun x hx => h x (by simp [hx]))

/-- A nonempty whitespace-free chunk is a single word. -/
theorem pyWordsW_single (w : Str) (hw : w ≠ [])
    (hnw : ∀ c ∈ w, notWs c = true) : pyWordsW w = [w] := by
  match w, hw with
  | c :: w', _ =>
    rw [pyWordsW_cons]
    have hc : c.isWhitespace = false := by
      have := hnw c (by simp); simpa [notWs] using this
    have hall : ∀ x ∈ w', notWs x = true := fun x hx => hnw x (by simp [hx])
    have ht : w'.takeWhile notWs = w' := by
      simpa using takeWhile_append_of_all notWs w' [] (by simpa using hall)
    have hd : w'.dropWhile notWs = [] := by
      have := dropWhile_append_of_all notWs w' [] (by simpa using hall)
      simpa using this
    simp [hc, ht, hd, pyWordsW_nil]

/-- A word followed by a whitespace character: the word splits off. -/
theorem pyWordsW_word_cons (w : Str) (hw : w ≠ [])
    (hnw : ∀ c ∈ w, notWs c = true) (d : Char) (hd : d.isWhitespace = true)
    (rest : Str) : pyWordsW (w ++ d :: rest) = w :: pyWordsW rest := by
  match w, hw with
  | c :: w', _ =>
    rw [List.cons_append, pyWordsW_cons]
    have hc : c.isWhitespace = false := by
      have := hnw c (by simp); simpa [notWs] using this
    have hall : ∀ x ∈ w', notWs x = true := fun x hx => hnw x (by simp [hx])
    have ht : (w' ++ d :: rest).takeWhile notWs = w' := by
      rw [takeWhile_append_of_all notWs w' (d :: rest) hall]
      simp [List.takeWhile_cons, notWs, hd]
    have hdr : (w' ++ d :: rest).dropWhile notWs = d :: rest := by
      rw [dropWhile_append_of_all notWs w' (d :: rest) hall]
      simp [List.dropWhile_cons, notWs, hd]
    rw [if_neg (by simp [hc]), ht, hdr, pyWordsW_cons, if_pos hd]

/-- Round trip: splitting a space-join of well-formed words recovers them. -/
theorem pyWordsW_joinSp (ws : List Str)
    (h : ∀ w ∈ ws, w ≠ [] ∧ ∀ c ∈ w, notWs c = true) :
    pyWordsW (joinSp ws) = ws := by
  induction ws with
  | nil => simp [joinSp, pyWordsW_nil]
  | cons w ws ih =>
    cases ws with
    | nil =>
      have := h w (by simp)
      simpa [joinSp] using pyWordsW_single w this.1 this.2
    | cons x ws' =>
      rw [joinSp_cons_cons]
      have hwp := h w (by simp)
      rw [pyWordsW_word_cons w hwp.1 hwp.2 ' ' (by decide) (joinSp (x :: ws'))]
      rw [ih (fun v hv => h v (by simp [hv]))]

/-- Appending a whitespace-free suffix to a space-join does not change the
number of words (the suffix glues onto the last word). -/
theorem pyWordsW_joinSp_append_length (ws : List Str) (suffix : Str)
    (hne : ws ≠ [])
    (h : ∀ w ∈ ws, w ≠ [] ∧ ∀ c ∈ w, notWs c = true)
    (hs : ∀ c ∈ suffix, notWs c = true) :
    (pyWordsW (joinSp ws ++ suffix)).length = ws.length := by
  induction ws with
  | nil => exact absurd rfl hne
  | cons w ws ih =>
    cases ws with
    | nil =>
      have hwp := h w (by simp)
      have h1 : pyWordsW (joinSp [w] ++ suffix) = [w ++ suffix] := by
        rw [joinSp_single]
        apply pyWordsW_single
        · simp [hwp.1]
        · intro c hc
          rcases List.mem_append.mp hc with h' | h'
          · exact hwp.2 c h'
          · exact hs c h'
      rw [h1]
      rfl
    | cons x ws' =>
      rw [joinSp_cons_cons, List.append_assoc, List.cons_append]
      have hwp := h w (by simp)
      rw [pyWordsW_word_cons w hwp.1 hwp.2 ' ' (by decide) (joinSp (x :: ws') ++ suffix)]
      have := ih (by simp) (fun v hv => h v (List.mem_cons_of_mem _ hv))
      simp only [List.length_cons] at this ⊢
      omega

/-- General `dropWhile` over an append. -/
theorem dropWhile_append_split (p : Char → Bool) (l r : Str) :
    (l ++ r).dropWhile p =
      if (l.dropWhile p).isEmpty then r.dropWhile p else l.dropWhile p ++ r := by
  induction l with
  | nil => simp
  | cons c cs ih =>
    by_cases hc : p c
    · simpa [List.dropWhile_cons, hc] using ih
    · simp [List.dropWhile_cons, hc]

/-- A prefix never has more whitespace-delimited words than the whole. -/
theorem pyWordsW_length_le_append (l r : Str) :
    (pyWordsW l).length ≤ (pyWordsW (l ++ r)).length := by
  generalize hn : l.length = n
  induction n using Nat.strong_induction_on generalizing l with
  | _ n ih =>
    match l, hn with
    | [], _ => simp [pyWordsW_nil]
    | c :: cs, hn =>
      by_cases hc : c.isWhitespace
      · rw [pyWordsW_cons, List.cons_append, pyWordsW_cons]
        simp only [hc, if_true]
        exact ih cs.length (by simp only [List.length_cons] at hn; omega) cs rfl
      · rw [pyWordsW_cons, List.cons_append, pyWordsW_cons]
        simp only [hc, if_false, Bool.false_eq_true, List.length_cons]
        rw [dropWhile_append_split]
        by_cases he : (cs.dropWhile notWs).isEmpty
        · have : cs.dropWhile notWs = [] := by simpa [List.isEmpty_iff] using he
          simp [he, this, pyWordsW_nil]
        · simp only [he, if_false, Bool.false_eq_true]
          have hlen : (cs.dropWhile notWs).length < n := by
            have := length_dropWhile_le' notWs cs
            simp only [List.length_cons] at hn
            omega
          exact Nat.succ_le_succ (ih _ hlen _ rfl)

theorem pyWords_words (s : Str) :
    ∀ w ∈ pyWords s, w ≠ [] ∧ ∀ c ∈ w, c.isWhitespace = false := by
  rw [pyWords_eq]; exact pyWordsW_words s

/-- Core invariant: `_limit_words` output has at most `maxWords` words
(ellipsis marker excluded). -/
theorem wordCountNoMarker_limit_words (t : Str) (m : Nat) :
    wordCountNoMarker (limit_words t m) ≤ m := by
  unfold limit_words
  by_cases h : (pyWords t).length > m
  · simp only [h, if_true]
    set ws' : List Str := (pyWords t).take m with hws'
    have hshape : ∀ w ∈ ws', w ≠ [] ∧ ∀ c ∈ w, notWs c = true := by
      intro w hw
      have hmem : w ∈ pyWords t := List.mem_of_mem_take hw
      have := pyWords_words t w hmem
      exact ⟨this.1, fun c hc => by simp [notWs, this.2 c hc]⟩
    have hcond : (joinSp ws' ++ ellipsisStr).reverse.take 3 = ellipsisStr := by
      rw [List.reverse_append, show ellipsisStr.reverse = ellipsisStr by decide]
      exact List.take_left ellipsisStr _
    unfold wordCountNoMarker
    rw [if_pos hcond]
    have hlen : (joinSp ws' ++ ellipsisStr).length = (joinSp ws').length + 3 := by
      simp [ellipsisStr]
    have htake : (joinSp ws' ++ ellipsisStr).take
        ((joinSp ws' ++ ellipsisStr).length - 3) = joinSp ws' := by
      rw [hlen, Nat.add_sub_cancel]
      exact List.take_left (joinSp ws') ellipsisStr
    rw [htake, pyWords_eq, pyWordsW_joinSp ws' hshape, hws', List.length_take]
    exact Nat.min_le_left _ _
  · simp only [h, if_false]
    unfold wordCountNoMarker
    by_cases hcond : t.reverse.take 3 = ellipsisStr
    · rw [if_pos hcond]
      have hsplit : t = (t.reverse.drop 3).reverse ++ ellipsisStr := by
        have h1 : t.reverse = ellipsisStr ++ t.reverse.drop 3 := by
          conv_lhs => rw [← List.take_append_drop 3 t.reverse, hcond]
        calc t = t.reverse.reverse := (List.reverse_reverse t).symm
          _ = (ellipsisStr ++ t.reverse.drop 3).reverse := by rw [← h1]
          _ = (t.reverse.drop 3).reverse ++ ellipsisStr.reverse := by
              rw [List.reverse_append]
          _ = (t.reverse.drop 3).reverse ++ ellipsisStr := by
              rw [show ellipsisStr.reverse = ellipsisStr by decide]
      have htake : t.take (t.length - 3) = (t.reverse.drop 3).reverse := by
        conv_lhs => rw [hsplit]
        rw [show ((t.reverse.drop 3).reverse ++ ellipsisStr).length - 3 =
            (t.reverse.drop 3).reverse.length by simp [ellipsisStr]]
        exact List.take_left _ _
      rw [htake]
      calc (pyWords (t.reverse.drop 3).reverse).length
          ≤ (pyWords ((t.reverse.drop 3).reverse ++ ellipsisStr)).length := by
            rw [pyWords_eq, pyWords_eq]
            exact pyWordsW_length_le_append _ _
        _ = (pyWords t).length := by rw [← hsplit]
        _ ≤ m := by omega
    · rw [if_neg hcond]
      omega


theorem lookupFirst_nil (ks : List Str) : lookupFirst [] ks = none := by
  induction ks with
  | nil => rfl
  | cons k ks ih => simpa [lookupFirst, List.lookup] using ih

theorem getLastD_cons' (a : Str) (l : List Str) (d : Str) :
    (a :: l).getLastD d = l.getLastD a := by
  cases l <;> simp [List.getLastD]

/-- Unfolding of `extract_finding` when a structured Results section exists. -/
theorem extract_finding_structured (d : Doc) (rt : Str) (n : Nat)
    (h : (get_structured_abstract d).lookup (strL ("Results")) = some rt) :
    extract_finding d n =
      if n ≤ (qualifyingOf rt).length then
        limit_words ((qualifyingOf rt).getD (n - 1) []) 15
      else if n ≤ (resultsSentences rt).length then
        limit_words ((resultsSentences rt).getD (n - 1) []) 15
      else finding_fallback d n := by
  unfold extract_finding
  rw [h]

/-- Unfolding of `extract_finding` when no structured Results section exists. -/
theorem extract_finding_no_results (d : Doc) (n : Nat)
    (h : (get_structured_abstract d).lookup (strL ("Results")) = none) :
    extract_finding d n = finding_fallback d n := by
  unfold extract_finding
  rw [h]

/-- The fallback yields the sentinel when the whole-abstract Results
regex does not match. -/
theorem finding_fallback_none (d : Doc) (n : Nat)
    (h : reSearchG resultsRe (get_abstract_text d) = none) :
    finding_fallback d n = findingSentinel n := by
  unfold finding_fallback
  rw [h]

/-! ## Claim theorems -/

/-- C1: for each of the six content fields and every input document, the
whitespace-delimited word count of the returned text (excluding the
appended ellipsis marker) is at most the field's fixed limit:
population=15, intervention=15, setting=10, primary_outcome=20,
finding_1=15, finding_2=15. -/
theorem c1_word_limit_invariant (d : Doc) :
    wordCountNoMarker (extract_population d) ≤ 15 ∧
    wordCountNoMarker (extract_intervention d) ≤ 15 ∧
    wordCountNoMarker (extract_setting d) ≤ 10 ∧
    wordCountNoMarker (extract_primary_outcome d) ≤ 20 ∧
    wordCountNoMarker (extract_finding d 1) ≤ 15 ∧
    wordCountNoMarker (extract_finding d 2) ≤ 15 := by
  refine ⟨?_, ?_, ?_, ?_, ?_, ?_⟩
  · unfold extract_population
    repeat' split
    all_goals try exact wordCountNoMarker_limit_words _ _
    decide
  · unfold extract_intervention
    repeat' split
    all_goals try exact wordCountNoMarker_limit_words _ _
    decide
  · unfold extract_setting
    repeat' split
    all_goals try exact wordCountNoMarker_limit_words _ _
    decide
  · unfold extract_primary_outcome
    repeat' split
    all_goals try exact wordCountNoMarker_limit_words _ _
    decide
  · unfold extract_finding finding_fallback
    repeat' split
    all_goals try exact wordCountNoMarker_limit_words _ _
    all_goals decide
  · unfold extract_finding finding_fallback
    repeat' split
    all_goals try exact wordCountNoMarker_limit_words _ _
    all_goals decide

/-- C2 (code bug): `extract_all` is claimed to always return the
ten-key mapping and never raise; but on a document with no
`citation_publication_date` meta, no `article:published_time` meta and
no `time[datetime]` element, `_extract_date`'s fourth selector
`'.meta-article-date'` contains the substring `'meta'`, is routed to the
meta branch, and `selector.split('[name="')[1]` raises `IndexError`,
which propagates out of `extract_all`. -/
theorem c2_extract_all_raises_on_dateless_doc (format_date : Str → Str) :
    extract_all emptyDoc format_date = Except.error PyErr.indexError := rfl

/-- C3: the engine tries strategies in list order; the first strategy
whose content passes the >500-character predicate stops the loop, its
name is recorded as the successful method, nothing after it is invoked
(the trace is exactly the failing prefix plus the winner), and when the
strategy names are distinct no strategy is invoked twice. -/
theorem c3_first_success_stops (st : ScraperState)
    (pre post : List (String × Outcome)) (nm : String) (c : Str)
    (hpre : ∀ x ∈ pre, strategyFails x.2 = true) (hc : 500 < c.length) :
    runMethods st (pre ++ (nm, Outcome.returns c) :: post) =
      (pre.map Prod.fst ++ [nm], ⟨some c, some nm⟩, Except.ok c) ∧
    (((pre ++ (nm, Outcome.returns c) :: post).map Prod.fst).Nodup →
      ∀ name : String, (pre.map Prod.fst ++ [nm]).count name ≤ 1) := by
  have hcp : succPred c = true := by
    have hne : c.isEmpty = false := by
      cases c with
      | nil => simp at hc
      | cons x xs => rfl
    simp [succPred, hne, hc]
  constructor
  · induction pre generalizing st with
    | nil =>
      simp [runMethods, hcp]
    | cons x pre' ih =>
      obtain ⟨n₀, o₀⟩ := x
      have hx : strategyFails o₀ = true := hpre (n₀, o₀) (by simp)
      cases o₀ with
      | raises =>
        rw [List.cons_append,
          show runMethods st ((n₀, Outcome.raises) :: (pre' ++ (nm, Outcome.returns c) :: post)) =
            (n₀ :: (runMethods st (pre' ++ (nm, Outcome.returns c) :: post)).1,
             (runMethods st (pre' ++ (nm, Outcome.returns c) :: post)).2) from rfl]
        rw [ih st (fun y hy => hpre y (List.mem_cons_of_mem _ hy))]
        simp
      | returns c₀ =>
        have hc₀ : succPred c₀ = false := by
          simpa [strategyFails] using hx
        rw [List.cons_append,
          show runMethods st ((n₀, Outcome.returns c₀) :: (pre' ++ (nm, Outcome.returns c) :: post)) =
            if succPred c₀ then ([n₀], ⟨some c₀, some n₀⟩, Except.ok c₀)
            else (n₀ :: (runMethods ⟨some c₀, st.successful_method⟩
                    (pre' ++ (nm, Outcome.returns c) :: post)).1,
                  (runMethods ⟨some c₀, st.successful_method⟩
                    (pre' ++ (nm, Outcome.returns c) :: post)).2) from rfl]
        rw [if_neg (by simp [hc₀])]
        rw [ih ⟨some c₀, st.successful_method⟩
          (fun y hy => hpre y (List.mem_cons_of_mem _ hy))]
        simp
  · intro hnd name
    have hsub : List.Sublist (pre.map Prod.fst ++ [nm])
        ((pre ++ (nm, Outcome.returns c) :: post).map Prod.fst) := by
      rw [List.map_append, List.map_cons]
      exact List.Sublist.append_left
        (List.cons_sublist_cons.mpr (List.nil_sublist _)) _
    exact Nat.le_trans (hsub.count_le name) (List.nodup_iff_count_le_one.mp hnd name)

/-- C3 witness: two raising strategies, then a 501-character success,
then two never-invoked strategies. -/
theorem c3_witness :
    runMethods initScraper
        (preC3 ++ ("requests + BeautifulSoup", Outcome.returns winContent) :: postC3) =
      (preC3.map Prod.fst ++ ["requests + BeautifulSoup"],
       ⟨some winContent, some ("requests + BeautifulSoup")⟩, Except.ok winContent) :=
  (c3_first_success_stops initScraper preC3 postC3 ("requests + BeautifulSoup")
    winContent (by decide)
    (by rw [show winContent.length = 501 from List.length_replicate 501 'x']; omega)).1

/-- C4: if every configured strategy raises, `scrape` ends in the
terminal exhaustion error after trying them all, the instance state is
unchanged (no content retained), and a subsequent `get_soup` yields no
document (it re-runs the strategies and propagates the error). -/
theorem c4_exhaustion_no_document (methods : List (String × Outcome))
    (h : ∀ x ∈ methods, x.2 = Outcome.raises) :
    runMethods initScraper methods =
      (methods.map Prod.fst, initScraper, Except.error ()) ∧
    get_soup initScraper methods = Except.error () := by
  have main : ∀ (ms : List (String × Outcome)),
      (∀ x ∈ ms, x.2 = Outcome.raises) →
      ∀ st, runMethods st ms = (ms.map Prod.fst, st, Except.error ()) := by
    intro ms
    induction ms with
    | nil => intro _ st; rfl
    | cons x rest ih =>
      intro hall st
      obtain ⟨n₀, o₀⟩ := x
      have hx : o₀ = Outcome.raises := hall (n₀, o₀) (by simp)
      subst hx
      rw [show runMethods st ((n₀, Outcome.raises) :: rest) =
        (n₀ :: (runMethods st rest).1, (runMethods st rest).2) from rfl]
      rw [ih (fun y hy => hall y (List.mem_cons_of_mem _ hy)) st]
      simp
  refine ⟨main methods h initScraper, ?_⟩
  unfold get_soup
  rw [if_pos (by rfl), main methods h initScraper]

/-- C4 witness: the full five-strategy environment, all raising. -/
theorem c4_witness :
    runMethods initScraper allRaiseMethods =
      (allRaiseMethods.map Prod.fst, initScraper, Except.error ()) ∧
    get_soup initScraper allRaiseMethods = Except.error () :=
  c4_exhaustion_no_document allRaiseMethods (by decide)

/-- C5: `_limit_words` is pure and deterministic; if the word count of
`text` exceeds `maxWords` it returns the first `maxWords` words joined
by single spaces with the ellipsis marker appended, and the word count
of the part before the marker is exactly `maxWords`; otherwise it
returns `text` unchanged. -/
theorem c5_limit_words_spec (text : Str) (maxWords : Nat) :
    ((pyWords text).length > maxWords →
      limit_words text maxWords =
        joinSp ((pyWords text).take maxWords) ++ ellipsisStr ∧
      (pyWords (joinSp ((pyWords text).take maxWords))).length = maxWords) ∧
    ((pyWords text).length ≤ maxWords → limit_words text maxWords = text) := by
  constructor
  · intro h
    constructor
    · unfold limit_words
      rw [if_pos h]
    · have hshape : ∀ w ∈ (pyWords text).take maxWords,
          w ≠ [] ∧ ∀ c ∈ w, notWs c = true := by
        intro w hw
        have hmem : w ∈ pyWords text := List.mem_of_mem_take hw
        have := pyWords_words text w hmem
        exact ⟨this.1, fun c hc => by simp [notWs, this.2 c hc]⟩
      rw [pyWords_eq, pyWordsW_joinSp _ hshape, List.length_take]
      omega
  · intro h
    unfold limit_words
    rw [if_neg (by omega)]

/-- C5 witness: a 20-word text truncated at 15. -/
theorem c5_witness :
    limit_words twentyWords 15 =
      joinSp ((pyWords twentyWords).take 15) ++ ellipsisStr ∧
    (pyWords (joinSp ((pyWords twentyWords).take 15))).length = 15 :=
  (c5_limit_words_spec twentyWords 15).1 (by decide)

/-- C6 counterexample: the claim says a section followed by several
paragraphs maps to the concatenation of all their texts; on the fragment
`<h3>Results</h3><p>First part.</p><p>Second part.</p>` the parser
instead keeps only the last paragraph's text (each paragraph *assigns*
the section body), which differs from the claimed concatenation. -/
theorem c6_counterexample :
    buildSections none [] [AbsNode.h3 (strL ("Results")),
      AbsNode.p (strL ("First part.")), AbsNode.p (strL ("Second part."))] =
      [(strL ("Results"), strL ("Second part."))] ∧
    strL ("Second part.") ≠ strL ("First part. Second part.") := by
  decide

/-- C6 amended: a heading's (nonempty) text becomes the active section
label with an empty body initialized, and each subsequent paragraph's
text *replaces* the section body until the next heading — a section
followed by several paragraphs maps to the last paragraph's text. -/
theorem c6_amended_paragraph_overwrites (h : Str) (ps : List Str)
    (rest : List AbsNode) (hne : h ≠ []) :
    buildSections none [] (AbsNode.h3 h :: (ps.map AbsNode.p ++ rest)) =
      buildSections (some h) [(h, ps.getLastD [])] rest := by
  have key : ∀ (ps' : List Str) (b : Str) (rest' : List AbsNode),
      buildSections (some h) [(h, b)] (ps'.map AbsNode.p ++ rest') =
        buildSections (some h) [(h, ps'.getLastD b)] rest' := by
    intro ps'
    induction ps' with
    | nil => intro b rest'; simp [List.getLastD]
    | cons p₀ ps'' ih =>
      intro b rest'
      simp only [List.map_cons, List.cons_append]
      rw [show buildSections (some h) [(h, b)]
            (AbsNode.p p₀ :: (ps''.map AbsNode.p ++ rest')) =
          buildSections (some h) (setKey [(h, b)] h p₀)
            (ps''.map AbsNode.p ++ rest') from by
        simp [buildSections, hne]]
      rw [show setKey [(h, b)] h p₀ = [(h, p₀)] from by simp [setKey]]
      rw [ih p₀ rest', getLastD_cons']
  rw [show buildSections none [] (AbsNode.h3 h :: (ps.map AbsNode.p ++ rest)) =
      buildSections (some h) [(h, [])] (ps.map AbsNode.p ++ rest) from rfl]
  exact key ps [] rest

/-- C6 amended witness: heading followed by two paragraphs keeps the
second paragraph's text. -/
theorem c6_witness :
    buildSections none [] (AbsNode.h3 (strL ("Results")) ::
        ([strL ("alpha."), strL ("beta.")].map AbsNode.p ++ [])) =
      buildSections (some (strL ("Results")))
        [(strL ("Results"), ([strL ("alpha."), strL ("beta.")]).getLastD [])] [] :=
  c6_amended_paragraph_overwrites (strL ("Results"))
    [strL ("alpha."), strL ("beta.")] [] (by decide)

/-- C7 counterexample: on the claimed fragment the population field is
*not* the full sentence with its trailing period — none of the three
structured sub-patterns matches ("adults" is not in the participant
alternation), so the code takes `text.split('.')[0]`, which cuts the
text at the first period and drops it. -/
theorem c7_counterexample :
    extract_population docC7 ≠ strL ("500 adults aged 60-75 with hypertension.") := by
  decide

/-- C7 amended: extracting the population field from that document
yields exactly `"500 adults aged 60-75 with hypertension"` — the
section text up to, and excluding, the first period; at most 15 words,
not truncated. -/
theorem c7_amended_first_sentence :
    extract_population docC7 = strL ("500 adults aged 60-75 with hypertension") ∧
    wordCountNoMarker (strL ("500 adults aged 60-75 with hypertension")) ≤ 15 := by
  decide

/-- C8: ordinal finding selection.  (1) With a structured Results
section, `finding_k` is the k-th marker-qualifying sentence when at
least k exist; (2) otherwise the k-th Results sentence overall when at
least k exist; (3,4) when no Results material yields a k-th sentence
(no structured Results and no regex span, or a structured Results too
short and no regex span) the ordinal's sentinel is returned; (5,6) on a
four-sentence Results section where sentences 1 and 3 carry markers,
finding_1 is sentence 1 and finding_2 is sentence 3. -/
theorem c8_ordinal_finding_selection :
    (∀ (d : Doc) (rt : Str) (n : Nat),
      (get_structured_abstract d).lookup (strL ("Results")) = some rt →
      n ≤ (qualifyingOf rt).length →
      extract_finding d n = limit_words ((qualifyingOf rt).getD (n - 1) []) 15) ∧
    (∀ (d : Doc) (rt : Str) (n : Nat),
      (get_structured_abstract d).lookup (strL ("Results")) = some rt →
      (qualifyingOf rt).length < n →
      n ≤ (resultsSentences rt).length →
      extract_finding d n = limit_words ((resultsSentences rt).getD (n - 1) []) 15) ∧
    (∀ (d : Doc) (n : Nat),
      (get_structured_abstract d).lookup (strL ("Results")) = none →
      reSearchG resultsRe (get_abstract_text d) = none →
      extract_finding d n = findingSentinel n) ∧
    (∀ (d : Doc) (rt : Str) (n : Nat),
      (get_structured_abstract d).lookup (strL ("Results")) = some rt →
      (qualifyingOf rt).length < n →
      (resultsSentences rt).length < n →
      reSearchG resultsRe (get_abstract_text d) = none →
      extract_finding d n = findingSentinel n) ∧
    extract_finding docC8 1 = strL ("Mortality was 20% in the treatment group") ∧
    extract_finding docC8 2 = strL ("The hazard was lower with p = 0.03 overall") := by
  refine ⟨?_, ?_, ?_, ?_, ?_, ?_⟩
  · intro d rt n h1 h2
    rw [extract_finding_structured d rt n h1, if_pos h2]
  · intro d rt n h1 h2 h3
    rw [extract_finding_structured d rt n h1, if_neg (by omega), if_pos h3]
  · intro d n h1 h2
    rw [extract_finding_no_results d n h1]
    exact finding_fallback_none d n h2
  · intro d rt n h1 h2 h3 h4
    rw [extract_finding_structured d rt n h1, if_neg (by omega), if_neg (by omega)]
    exact finding_fallback_none d n h4
  · decide
  · decide

/-- C8 witness: on the four-sentence document the first conjunct applies
with k = 1 (two qualifying sentences exist). -/
theorem c8_witness :
    extract_finding docC8 1 =
      limit_words ((qualifyingOf resultsTextC8).getD 0 []) 15 :=
  c8_ordinal_finding_selection.1 docC8 resultsTextC8 1 (by decide) (by decide)

/-- C9 counterexample: field extraction *can* return the empty string,
contradicting the claim.  On a fragment `<h3>Participants</h3>` (a
heading with no paragraph) the Participants body is `""`; no structured
sub-pattern matches the empty string, `''.split('.')[0]` is `''`, and
`_limit_words('', 15)` returns `''`. -/
theorem c9_counterexample : extract_population docC9 = strL ("") := by
  decide

/-- C9 amended: the six field extractors never raise (they are total
functions), and when neither the structured path nor any regex fallback
matches they return the field-specific not-found sentinel; however the
returned text can be the empty string when a structured section is
present with an empty body. -/
theorem c9_amended_sentinels (d : Doc) (n : Nat)
    (hs : get_structured_abstract d = [])
    (hp : firstGroupMatch [popF1, popF2, popF3] (get_abstract_text d) = none)
    (hi : firstGroupMatch [intF1, intF2, intF3] (get_abstract_text d) = none)
    (hset : firstGroupMatch [setF1, setF2, setF3] (get_abstract_text d) = none)
    (ho : firstGroupMatch [outF1, outF2, outF3] (get_abstract_text d) = none)
    (hf : reSearchG resultsRe (get_abstract_text d) = none) :
    extract_population d = strL ("Population data not found") ∧
    extract_intervention d = strL ("Intervention data not found") ∧
    extract_setting d = strL ("Setting data not found") ∧
    extract_primary_outcome d = strL ("Primary outcome not found") ∧
    extract_finding d n = findingSentinel n := by
  have hlk : ∀ k : Str, (get_structured_abstract d).lookup k = none := by
    intro k
    rw [hs]
    rfl
  refine ⟨?_, ?_, ?_, ?_, ?_⟩
  · unfold extract_population
    rw [hs, lookupFirst_nil, hp]
  · unfold extract_intervention
    rw [hs, lookupFirst_nil, hi]
  · unfold extract_setting
    rw [hs, lookupFirst_nil, hset]
  · unfold extract_primary_outcome
    rw [hs, lookupFirst_nil, ho]
  · rw [extract_finding_no_results d n (hlk _)]
    exact finding_fallback_none d n hf

/-- C9 amended witness: the empty document yields every sentinel. -/
theorem c9_witness :
    extract_population emptyDoc = strL ("Population data not found") ∧
    extract_intervention emptyDoc = strL ("Intervention data not found") ∧
    extract_setting emptyDoc = strL ("Setting data not found") ∧
    extract_primary_outcome emptyDoc = strL ("Primary outcome not found") ∧
    extract_finding emptyDoc 1 = findingSentinel 1 :=
  c9_amended_sentinels emptyDoc 1 (by decide) (by decide) (by decide)
    (by decide) (by decide) (by decide)

/-- C10 (code bug): the claim says that when no date source matches,
`_extract_date` returns the current system date as "Month Year" (line
126); in fact that fallback is unreachable — processing the fourth
selector `'.meta-article-date'` raises `IndexError` first, for every
document reaching it. -/
theorem c10_date_fallback_unreachable (format_date : Str → Str) :
    extract_date emptyDoc format_date = Except.error PyErr.indexError := rfl
